import Mathlib

/-!
Verification of the instance health-check and metadata-refresh engine of the
furryfediverse-site repository (a directory of federated social-network
instances).  The definitions below are a shallow embedding of the TypeScript
source: the cache-sweep route (`GET`), its helpers `validateThumbnailPath` and
`triggerRevalidation`, and the registration endpoint (`add.ts`).  External
effects (the network probe, the Prisma store, the filesystem, the Next.js
revalidation channels) are modelled as explicit environment parameters; the
control flow and the data written mirror the source line by line.
-/

/-- The placeholder sentinel used throughout the source for missing or
repaired thumbnails (`/img/fedi_placeholder.png`). -/
def fediPlaceholder : String := "/img/fedi_placeholder.png"

/-- Sublist ("substring") test on character lists: does `pat` occur
contiguously inside the list?  Models JavaScript's `String.prototype.includes`. -/
def hasSubList (pat : List Char) : List Char → Bool
  | [] => pat.isEmpty
  | c :: rest => pat.isPrefixOf (c :: rest) || hasSubList pat rest

/-- `s.includes pat`: JavaScript's `includes` — `pat` occurs as a contiguous
substring of `s`. -/
def String.includes (s pat : String) : Bool :=
  hasSubList pat.toList s.toList

/-- Model of JavaScript's `String.prototype.startsWith`. -/
def strStartsWith (s pat : String) : Bool :=
  pat.toList.isPrefixOf s.toList

/-- Embedding of `validateThumbnailPath` (the thumbnail path sanitizer of the
cache route, lines 14–44).  `fsExists` models `fs.existsSync` on the resolved
public path (the store of on-disk assets, held fixed during a call).
Branches, in source order: empty input → placeholder; a runaway path
containing `/img/img/` → placeholder; a local `/img/` path → pass through
when the asset exists, else placeholder (the `catch` around the filesystem
probe also yields the placeholder, so the branch is total); anything else
(remote URL) → unchanged. -/
def validateThumbnailPath (fsExists : String → Bool) (thumbnailPath : String) : String :=
  if thumbnailPath = "" then
    fediPlaceholder
  else if thumbnailPath.includes "/img/img/" then
    fediPlaceholder
  else if strStartsWith thumbnailPath "/img/" then
    if fsExists thumbnailPath then thumbnailPath else fediPlaceholder
  else
    thumbnailPath

/-- The sweep's null-thumbnail repair (cache route lines 91–93): a `null`
thumbnail from the probe is replaced by the placeholder before
sanitisation. -/
def fixNullThumbnail (t : Option String) : String :=
  match t with
  | none => fediPlaceholder
  | some s => s

/-- The sanitisation the sweep actually applies to the probe's thumbnail
field: null repair followed by `validateThumbnailPath`. -/
def sweepSanitize (fsExists : String → Bool) (t : Option String) : String :=
  validateThumbnailPath fsExists (fixNullThumbnail t)

/-- Modelled from the spec: the sanitizer rules as §4.2 states them, in
order — (a) empty or absent input → placeholder; (b) repeated-segment marker
`/img/img/` → placeholder; (c) local path → placeholder when the asset is
absent, unchanged when present; (d) anything else → unchanged. -/
def sanitizeSpec (fsExists : String → Bool) (t : Option String) : String :=
  match t with
  | none => fediPlaceholder
  | some s =>
    if s = "" then fediPlaceholder
    else if s.includes "/img/img/" then fediPlaceholder
    else if strStartsWith s "/img/" then
      if fsExists s then s else fediPlaceholder
    else s

/-- A row of the `instances` table, with the fields the source reads or
writes: identity (`id`, `uri`), registration data (`name`, `tipo` for the
source's `type` column, `nsfwflag`, `verified`, `api_key`), probe dialect
(`api_mode`), and the health fields (`failed_checks`, `banned`,
`ban_reason`). -/
structure Instances where
  id : Nat
  uri : String
  api_mode : String
  name : String
  tipo : String
  nsfwflag : String
  verified : Bool
  api_key : String
  failed_checks : Nat
  banned : Bool
  ban_reason : Option String
  deriving Repr, DecidableEq

/-- A row of the `instanceData` table (one-to-one with `instances` via
`instance_id`): the metadata fields the sweep writes plus the raw `cache`
blob written at registration. -/
structure InstanceData where
  instance_id : Nat
  title : String
  description : String
  thumbnail : String
  user_count : Nat
  status_count : Nat
  registrations : Bool
  approval_required : Bool
  cache : String
  deriving Repr, DecidableEq

/-- The normalized record `InstanceFetcher.checkAvailable` produces on
success; `thumbnail` is `none` when the remote reported `null`. -/
structure ProbeMetadata where
  title : String
  description : String
  thumbnail : Option String
  user_count : Nat
  status_count : Nat
  registrations : Bool
  approval_required : Bool
  deriving Repr, DecidableEq

/-- The ban reason string the sweep writes. -/
def banReasonMsg : String := "Instance failed 5 checks in a row"

/-- The health tracker's failure branch (cache route lines 116–133): when the
stored `failed_checks` is already at least 5, set `banned` with the fixed
reason and leave the counter alone; otherwise increment the counter by 1. -/
def recordFailure (inst : Instances) : Instances :=
  if inst.failed_checks ≥ 5 then
    { inst with banned := true, ban_reason := some banReasonMsg }
  else
    { inst with failed_checks := inst.failed_checks + 1 }

/-- The health tracker's success branch (cache route lines 110–115): reset
`failed_checks` to 0. -/
def recordSuccess (inst : Instances) : Instances :=
  { inst with failed_checks := 0 }

/-- A fresh, never-failed instance: used to measure failure runs. -/
def freshHealth (inst : Instances) : Prop :=
  inst.failed_checks = 0 ∧ inst.banned = false

/-- A concrete sample instance at a given failure count, used to evaluate
the model on explicit inputs. -/
def sampleInst (n : Nat) : Instances :=
  { id := 1
    uri := "a.example"
    api_mode := "mastodon"
    name := "A"
    tipo := "general"
    nsfwflag := "sfw"
    verified := true
    api_key := "k"
    failed_checks := n
    banned := false
    ban_reason := none }

/-- A concrete sample instance with chosen id, uri and failure count. -/
def instWith (i : Nat) (u : String) (n : Nat) : Instances :=
  { sampleInst n with id := i, uri := u }

/-- A concrete sample metadata row for instance `iid` holding the raw cache
blob `cacheVal`. -/
def sampleData (iid : Nat) (cacheVal : String) : InstanceData :=
  { instance_id := iid
    title := "Old Title"
    description := "old description"
    thumbnail := "https://old.example/t.png"
    user_count := 1
    status_count := 2
    registrations := false
    approval_required := true
    cache := cacheVal }

/-- A concrete successful probe result with a remote thumbnail URL. -/
def freshProbe : ProbeMetadata :=
  { title := "New Title"
    description := "new description"
    thumbnail := some "https://cdn.example/new.png"
    user_count := 10
    status_count := 20
    registrations := true
    approval_required := false }

/-- The exceptions the sweep's `catch` distinguishes: the two Prisma error
classes are answered with a 400 response (ending the handler), everything
else falls through the `catch` and the loop continues. -/
inductive PErr where
  | known (msg : String)
  | validation (msg : String)
  | other
  deriving Repr, DecidableEq

/-- The persistent store: the two Prisma tables the routes touch. -/
structure DB where
  instances : List Instances
  instanceData : List InstanceData
  deriving Repr, DecidableEq

/-- External effects of the sweep, as an explicit environment: the probe
(`InstanceFetcher.checkAvailable`, `none` = the source's `false`), fault
injection for the two Prisma `update` calls (keyed by instance id), and the
filesystem consulted by the sanitizer. -/
structure Env where
  probe : String → String → Option ProbeMetadata
  dataUpdateErr : Nat → Option PErr
  instUpdateErr : Nat → Option PErr
  fsExists : String → Bool

/-- `prisma.instanceData.update({ where: { instance_id }, data })`: either
the injected storage error, or the row with that `instance_id` rewritten. -/
def dataUpdate (env : Env) (db : DB) (iid : Nat) (f : InstanceData → InstanceData) :
    Except PErr DB :=
  match env.dataUpdateErr iid with
  | some e => Except.error e
  | none =>
    Except.ok { db with
      instanceData := db.instanceData.map fun d =>
        if d.instance_id = iid then f d else d }

/-- `prisma.instances.update({ where: { id }, data })`: either the injected
storage error, or the row with that `id` rewritten. -/
def instUpdate (env : Env) (db : DB) (iid : Nat) (f : Instances → Instances) :
    Except PErr DB :=
  match env.instUpdateErr iid with
  | some e => Except.error e
  | none =>
    Except.ok { db with
      instances := db.instances.map fun j =>
        if j.id = iid then f j else j }

/-- The metadata replacement the sweep writes on a successful probe (cache
route lines 98–109): the seven listed fields come from the probe result
(thumbnail already sanitized); every other column of the row —
`instance_id` and the raw `cache` blob — is left as stored. -/
def metadataWrite (u : ProbeMetadata) (validatedThumbnail : String)
    (d : InstanceData) : InstanceData :=
  { d with
    title := u.title
    description := u.description
    thumbnail := validatedThumbnail
    user_count := u.user_count
    status_count := u.status_count
    registrations := u.registrations
    approval_required := u.approval_required }

/-- The body of the sweep's per-instance `try` block (cache route lines
85–133), for the instance snapshot `inst` read at sweep start.  Returns the
store as left by the calls that committed before any error, plus the error if
one was thrown.  On probe success: null-thumbnail repair, sanitisation,
metadata replacement, then failure-counter reset.  On probe failure: the
health tracker's branch on the snapshot's `failed_checks`. -/
def processInstance (env : Env) (db : DB) (inst : Instances) : DB × Option PErr :=
  match env.probe inst.uri inst.api_mode with
  | some u =>
    let validated := sweepSanitize env.fsExists u.thumbnail
    match dataUpdate env db inst.id (metadataWrite u validated) with
    | Except.error e => (db, some e)
    | Except.ok db1 =>
      match instUpdate env db1 inst.id recordSuccess with
      | Except.error e => (db1, some e)
      | Except.ok db2 => (db2, none)
  | none =>
    if inst.failed_checks ≥ 5 then
      match instUpdate env db inst.id
          (fun j => { j with banned := true, ban_reason := some banReasonMsg }) with
      | Except.error e => (db, some e)
      | Except.ok db1 => (db1, none)
    else
      match instUpdate env db inst.id
          (fun j => { j with failed_checks := inst.failed_checks + 1 }) with
      | Except.error e => (db, some e)
      | Except.ok db1 => (db1, none)

/-- The sweep's `for` loop over the snapshot list, with the `catch` of the
source: a Prisma error ends the handler at once with that error's message (a
400 response), any other exception is swallowed and the loop continues.
Also records, in order, the `id` of every instance the probe was invoked
for. -/
def sweepLoop (env : Env) : DB → List Instances → DB × List Nat × Option String
  | db, [] => (db, [], none)
  | db, inst :: rest =>
    match processInstance env db inst with
    | (db1, none) =>
      let (dbf, ids, ab) := sweepLoop env db1 rest
      (dbf, inst.id :: ids, ab)
    | (db1, some (PErr.known msg)) => (db1, [inst.id], some msg)
    | (db1, some (PErr.validation msg)) => (db1, [inst.id], some msg)
    | (db1, some PErr.other) =>
      let (dbf, ids, ab) := sweepLoop env db1 rest
      (dbf, inst.id :: ids, ab)

/-- Fault injection for the three revalidation channels: whether
`revalidateTag`, `revalidatePath`, or the direct `fetch` to
`/api/revalidate` throws. -/
structure RevalEnv where
  tagFails : Bool
  pathFails : Bool
  apiFails : Bool
  deriving Repr, DecidableEq

/-- Which channels an invocation of `triggerRevalidation` actually reached. -/
structure RevalResult where
  tagAttempted : Bool
  pathAttempted : Bool
  apiAttempted : Bool
  deriving Repr, DecidableEq

/-- No revalidation attempt at all (the handler returned before reaching
`triggerRevalidation`). -/
def noReval : RevalResult :=
  { tagAttempted := false, pathAttempted := false, apiAttempted := false }

/-- Embedding of `triggerRevalidation` (cache route lines 47–78).  One outer
`try` wraps all three channels, with an inner `try` around only the direct
API `fetch`: so a throw from `revalidateTag` skips both later channels, a
throw from `revalidatePath` skips the API call, and a throw from the `fetch`
is swallowed by the inner `catch`.  In every case the function itself
returns normally. -/
def triggerRevalidation (renv : RevalEnv) : RevalResult :=
  if renv.tagFails then
    { tagAttempted := true, pathAttempted := false, apiAttempted := false }
  else if renv.pathFails then
    { tagAttempted := true, pathAttempted := true, apiAttempted := false }
  else
    { tagAttempted := true, pathAttempted := true, apiAttempted := true }

/-- An HTTP JSON response as the routes build it: a message body and a
status code (`NextResponse.json` defaults to 200). -/
structure ApiResponse where
  message : String
  status : Nat
  deriving Repr, DecidableEq

/-- Embedding of the sweep handler `GET` (cache route lines 80–147):
enumerate the non-banned instances, run the loop, and either answer 400 with
the Prisma error's message (revalidation never reached) or trigger
revalidation and answer 200 with the fixed message.  Result: final store,
ids probed, revalidation outcome, response. -/
def sweepGET (env : Env) (renv : RevalEnv) (db : DB) :
    DB × List Nat × RevalResult × ApiResponse :=
  let allInstances := db.instances.filter fun i => i.banned = false
  match sweepLoop env db allInstances with
  | (db1, ids, some msg) => (db1, ids, noReval, { message := msg, status := 400 })
  | (db1, ids, none) =>
    (db1, ids, triggerRevalidation renv,
      { message := "successfully updated instances", status := 200 })

/-- The successful payload of `testURI`: the fields `add.ts` reads from it. -/
structure CacheData where
  title : String
  contact_account : Option String
  deriving Repr, DecidableEq

/-- External effects of the registration endpoint: the `testURI` probe
(`none` = the source's `false`), the row skeletons Prisma's schema defaults
produce for a `create`, and `JSON.stringify` on the probe payload. -/
structure AddEnv where
  testURI : String → Option CacheData
  freshInstance : Instances
  freshData : InstanceData
  serialize : CacheData → String

/-- The request `add.ts` reads: HTTP method plus the typed body
`{ uri, type, nsfwflag }` (the body carries no `verified` field at all). -/
structure AddRequest where
  method : String
  uri : String
  tipo : String
  nsfwflag : String
  deriving Repr, DecidableEq

/-- Embedding of the registration endpoint (`add.ts`): reject non-POST,
reject a URI `testURI` cannot verify, answer the unique-constraint violation
(`P2002`) when the URI already exists, and otherwise create the instance —
`verified` hard-coded to `false`, nested `instanceData` create holding the
serialized probe payload — followed by the source's immediate follow-up
update forcing `verified` back to `false` for that URI. -/
def addHandler (env : AddEnv) (db : DB) (req : AddRequest) : DB × ApiResponse :=
  if req.method ≠ "POST" then
    (db, { message := "Invalid API Method", status := 405 })
  else
    match env.testURI req.uri with
    | none => (db, { message := "failed to verify URI", status := 400 })
    | some cachedata =>
      if db.instances.any fun i => i.uri = req.uri then
        (db, { message := "Instance already exists", status := 400 })
      else
        let savedInstance : Instances :=
          { env.freshInstance with
            name := cachedata.title
            tipo := req.tipo
            nsfwflag := req.nsfwflag
            uri := req.uri
            verified := false }
        let newData : InstanceData :=
          { env.freshData with
            instance_id := savedInstance.id
            cache := env.serialize cachedata }
        let db1 : DB :=
          { instances := db.instances ++ [savedInstance]
            instanceData := db.instanceData ++ [newData] }
        let db2 : DB :=
          { db1 with
            instances := db1.instances.map fun i =>
              if i.uri = req.uri then { i with verified := false } else i }
        match cachedata.contact_account with
        | some _ =>
          (db2, { message := "Added instance successfully, your instance admin account needs to be verfied! Check your DMs!", status := 200 })
        | none =>
          (db2, { message := "Added instance successfully, but you will need to manually verify it. Please message @effy@effy.space from an admin account.", status := 200 })

/-- The per-row relation preserved by every write of the engine: identity is
unchanged and a banned row stays banned. -/
def banMono (i j : Instances) : Prop :=
  i.id = j.id ∧ (i.banned = true → j.banned = true)

/-- A revalidation environment in which no channel fails. -/
def quietReval : RevalEnv :=
  { tagFails := false, pathFails := false, apiFails := false }

/-- Concrete environment for the storage-error runs: every probe succeeds
with `freshProbe`, and the metadata write for instance id 1 throws a
`PrismaClientKnownRequestError` with message `boom`. -/
def envAbort : Env :=
  { probe := fun _ _ => some freshProbe
    dataUpdateErr := fun iid => if iid = 1 then some (PErr.known "boom") else none
    instUpdateErr := fun _ => none
    fsExists := fun _ => true }

/-- Concrete environment in which every probe succeeds and no storage call
fails. -/
def envOk : Env :=
  { probe := fun _ _ => some freshProbe
    dataUpdateErr := fun _ => none
    instUpdateErr := fun _ => none
    fsExists := fun _ => true }

/-- Concrete environment in which every probe succeeds and the metadata
write for instance id 1 throws a non-Prisma exception. -/
def envOther : Env :=
  { probe := fun _ _ => some freshProbe
    dataUpdateErr := fun iid => if iid = 1 then some PErr.other else none
    instUpdateErr := fun _ => none
    fsExists := fun _ => true }

/-- Store with the two non-banned instances B (id 1) and C (id 2), both at 3
failed checks. -/
def dbBC : DB :=
  { instances := [instWith 1 "b.example" 3, instWith 2 "c.example" 3]
    instanceData := [sampleData 1 "cache-b", sampleData 2 "cache-c"] }

/-- Store with the single non-banned instance A (id 1) at 3 failed checks,
whose metadata row holds the raw cache blob `cacheVal`. -/
def dbOne (cacheVal : String) : DB :=
  { instances := [instWith 1 "a.example" 3]
    instanceData := [sampleData 1 cacheVal] }

/-- The empty store. -/
def dbEmpty : DB :=
  { instances := [], instanceData := [] }

/-- A concrete banned instance. -/
def bannedInst : Instances :=
  { sampleInst 0 with
    id := 9
    uri := "d.example"
    banned := true
    ban_reason := some banReasonMsg }

/-- Store holding the non-banned instance A (id 1) next to a banned
instance (id 9). -/
def dbMix : DB :=
  { instances := [instWith 1 "a.example" 0, bannedInst]
    instanceData := [sampleData 1 "cache-a", sampleData 9 "cache-d"] }

/-- Concrete registration environment: `testURI` verifies every URI with
title `T` and no contact account, and Prisma's defaults are the sample
rows. -/
def addEnvOk : AddEnv :=
  { testURI := fun _ => some { title := "T", contact_account := none }
    freshInstance := sampleInst 0
    freshData := sampleData 0 ""
    serialize := fun c => c.title }

/-- A concrete registration request. -/
def addReq : AddRequest :=
  { method := "POST", uri := "new.example", tipo := "general", nsfwflag := "sfw" }

/-- The row `addHandler addEnvOk dbEmpty addReq` persists. -/
def createdSample : Instances :=
  { sampleInst 0 with
    name := "T"
    tipo := "general"
    nsfwflag := "sfw"
    uri := "new.example"
    verified := false }

lemma validateThumbnailPath_placeholder (fsExists : String → Bool) :
    validateThumbnailPath fsExists fediPlaceholder = fediPlaceholder := by
  unfold validateThumbnailPath
  have h1 : (fediPlaceholder = "") = False := by
    simp [fediPlaceholder]
  have h2 : fediPlaceholder.includes "/img/img/" = false := by decide
  have h3 : strStartsWith fediPlaceholder "/img/" = true := by decide
  simp [h1, h2, h3]

lemma validateThumbnailPath_cases (fsExists : String → Bool) (x : String) :
    validateThumbnailPath fsExists x = fediPlaceholder ∨
      validateThumbnailPath fsExists x = x := by
  unfold validateThumbnailPath
  split_ifs <;> simp

/-- C5: the thumbnail sanitizer is idempotent (asset store held fixed). -/
theorem validateThumbnailPath_idem (fsExists : String → Bool) (x : String) :
    validateThumbnailPath fsExists (validateThumbnailPath fsExists x) =
      validateThumbnailPath fsExists x := by
  rcases validateThumbnailPath_cases fsExists x with h | h
  · rw [h, validateThumbnailPath_placeholder]
  · rw [h]
    exact h

/-- C4: the sanitisation the sweep applies (null repair followed by
`validateThumbnailPath`) realises the rules of the spec in the stated order:
empty or absent input and runaway `/img/img/` paths yield the placeholder, a
local path passes through exactly when its asset is present, and any other
input passes through unchanged. -/
theorem sweepSanitize_eq_spec (fsExists : String → Bool) (t : Option String) :
    sweepSanitize fsExists t = sanitizeSpec fsExists t := by
  cases t with
  | none =>
    simp only [sweepSanitize, fixNullThumbnail, sanitizeSpec]
    exact validateThumbnailPath_placeholder fsExists
  | some s =>
    rfl

/-- C7: a successful probe resets the failure counter to 0 and leaves the
banned flag, the ban reason, and every other field unchanged. -/
theorem recordSuccess_resets_and_frames (inst : Instances) :
    (recordSuccess inst).failed_checks = 0 ∧
      (recordSuccess inst).banned = inst.banned ∧
      (recordSuccess inst).ban_reason = inst.ban_reason ∧
      (recordSuccess inst).verified = inst.verified ∧
      (recordSuccess inst).uri = inst.uri ∧
      (recordSuccess inst).id = inst.id := by
  exact ⟨rfl, rfl, rfl, rfl, rfl, rfl⟩

lemma recordFailure_of_ge (j : Instances) (h : j.failed_checks ≥ 5) :
    recordFailure j = { j with banned := true, ban_reason := some banReasonMsg } := by
  unfold recordFailure
  rw [if_pos h]

lemma recordFailure_of_lt (j : Instances) (h : j.failed_checks < 5) :
    recordFailure j = { j with failed_checks := j.failed_checks + 1 } := by
  unfold recordFailure
  rw [if_neg (Nat.not_le.mpr h)]

/-- C1 counterexample: the claim says `record_failure` bans exactly when
current failure count + 1 ≥ 5, so five consecutive failures from a fresh
instance should ban.  On the code they do not: after five failures the
counter is 5 and `banned` is still `false`, and a single failure at counter 4
(where 4 + 1 ≥ 5) merely increments. -/
theorem recordFailure_five_not_banned :
    (4 + 1 ≥ 5 ∧ (recordFailure (sampleInst 4)).banned = false) ∧
      (recordFailure^[5] (sampleInst 0)).banned = false ∧
      (recordFailure^[5] (sampleInst 0)).failed_checks = 5 := by
  refine ⟨⟨by norm_num, ?_⟩, ?_, ?_⟩ <;> decide

/-- C1 amended: `record_failure` bans exactly when the current failure count
is already ≥ 5 (i.e. on the 6th consecutive failure of a fresh instance),
setting the fixed reason and leaving the counter at its last value; below the
threshold it increments the counter by 1 and leaves the ban state unchanged.
Consequently a fresh instance after `n ≤ 5` consecutive failures is unbanned
with counter `n`, and after 6 consecutive failures is banned with the fixed
reason. -/
theorem recordFailure_bans_at_six (inst : Instances) :
    (inst.failed_checks ≥ 5 →
      (recordFailure inst).banned = true ∧
        (recordFailure inst).ban_reason = some banReasonMsg ∧
        (recordFailure inst).failed_checks = inst.failed_checks) ∧
    (inst.failed_checks < 5 →
      (recordFailure inst).banned = inst.banned ∧
        (recordFailure inst).ban_reason = inst.ban_reason ∧
        (recordFailure inst).failed_checks = inst.failed_checks + 1) ∧
    (freshHealth inst →
      (∀ n, n ≤ 5 →
        (recordFailure^[n] inst).banned = false ∧
          (recordFailure^[n] inst).failed_checks = n) ∧
      (recordFailure^[6] inst).banned = true ∧
        (recordFailure^[6] inst).ban_reason = some banReasonMsg) := by
  refine ⟨fun h => ?_, fun h => ?_, fun hf => ?_⟩
  · rw [recordFailure_of_ge inst h]
    exact ⟨rfl, rfl, rfl⟩
  · rw [recordFailure_of_lt inst h]
    exact ⟨rfl, rfl, rfl⟩
  · obtain ⟨h0, hb⟩ := hf
    have run : ∀ n, n ≤ 5 → (recordFailure^[n] inst).failed_checks = n ∧
        (recordFailure^[n] inst).banned = false := by
      intro n hn
      induction n with
      | zero => exact ⟨h0, hb⟩
      | succ m ih =>
        obtain ⟨hc, hbk⟩ := ih (Nat.le_of_succ_le hn)
        rw [Function.iterate_succ_apply',
          recordFailure_of_lt (recordFailure^[m] inst)
            (by rw [hc]; exact Nat.lt_of_succ_le hn)]
        exact ⟨by rw [hc], hbk⟩
    have h5 := run 5 (le_refl 5)
    have h6 : (recordFailure^[6] inst) = recordFailure (recordFailure^[5] inst) :=
      Function.iterate_succ_apply' recordFailure 5 inst
    have hge : (recordFailure^[5] inst).failed_checks ≥ 5 := le_of_eq h5.1.symm
    refine ⟨fun n hn => ⟨(run n hn).2, (run n hn).1⟩, ?_, ?_⟩
    · rw [h6, recordFailure_of_ge _ hge]
    · rw [h6, recordFailure_of_ge _ hge]

/-- Witness for `recordFailure_bans_at_six` at a concrete fresh instance. -/
theorem recordFailure_bans_at_six_witness :
    (recordFailure^[6] (sampleInst 0)).banned = true ∧
      (recordFailure^[3] (sampleInst 0)).failed_checks = 3 := by
  have h := recordFailure_bans_at_six (sampleInst 0)
  have hf := h.2.2 ⟨rfl, rfl⟩
  exact ⟨hf.2.1, (hf.1 3 (by norm_num)).2⟩

/-- C2 counterexample: with instances B (id 1) and C (id 2) both non-banned
and B's metadata write throwing a Prisma error, the sweep answers 400 at
once: C is never probed (the probed-id list is `[1]`), no row of the store is
touched, and revalidation is skipped — contradicting the claim that every
instance after the failing one is still probed and updated. -/
theorem sweep_aborts_on_storage_error :
    sweepGET envAbort quietReval dbBC =
      (dbBC, [1], noReval, { message := "boom", status := 400 }) ∧
      (2 : Nat) ∉ (sweepGET envAbort quietReval dbBC).2.1 := by
  constructor
  · rfl
  · decide

/-- C2 amended: a storage error surfacing as one of the two Prisma error
classes ends the sweep immediately with that error's message, leaving the
remaining instances unprocessed; only a non-Prisma exception is swallowed by
the `catch`, in which case the sweep continues with the remaining
instances. -/
theorem sweepLoop_prisma_error_aborts (env : Env) (db : DB) (inst : Instances)
    (rest : List Instances) :
    (∀ db1 msg, processInstance env db inst = (db1, some (PErr.known msg)) →
      sweepLoop env db (inst :: rest) = (db1, [inst.id], some msg)) ∧
    (∀ db1 msg, processInstance env db inst = (db1, some (PErr.validation msg)) →
      sweepLoop env db (inst :: rest) = (db1, [inst.id], some msg)) ∧
    (∀ db1, processInstance env db inst = (db1, some PErr.other) →
      sweepLoop env db (inst :: rest) =
        ((sweepLoop env db1 rest).1, inst.id :: (sweepLoop env db1 rest).2.1,
          (sweepLoop env db1 rest).2.2)) := by
  refine ⟨fun db1 msg h => ?_, fun db1 msg h => ?_, fun db1 h => ?_⟩ <;>
    simp [sweepLoop, h]

/-- Witness for `sweepLoop_prisma_error_aborts`: the Prisma-error branch at
the concrete aborting run, and the swallowed-exception branch continuing
past instance B to instance C. -/
theorem sweepLoop_prisma_error_aborts_witness :
    sweepLoop envAbort dbBC [instWith 1 "b.example" 3, instWith 2 "c.example" 3] =
      (dbBC, [1], some "boom") ∧
    sweepLoop envOther dbBC [instWith 1 "b.example" 3, instWith 2 "c.example" 3] =
      ((sweepLoop envOther dbBC [instWith 2 "c.example" 3]).1,
        1 :: (sweepLoop envOther dbBC [instWith 2 "c.example" 3]).2.1,
        (sweepLoop envOther dbBC [instWith 2 "c.example" 3]).2.2) := by
  constructor
  · exact (sweepLoop_prisma_error_aborts envAbort dbBC (instWith 1 "b.example" 3)
      [instWith 2 "c.example" 3]).1 dbBC "boom" rfl
  · exact (sweepLoop_prisma_error_aborts envOther dbBC (instWith 1 "b.example" 3)
      [instWith 2 "c.example" 3]).2.2 dbBC rfl

/-- C3 counterexample: when `revalidateTag` throws, the remaining two
channels are skipped — the path-based purge is never attempted —
contradicting the claim that the three invalidation channels are attempted
independently. -/
theorem triggerRevalidation_tag_failure_skips_rest :
    (triggerRevalidation { tagFails := true, pathFails := false, apiFails := false
      }).pathAttempted = false ∧
    (triggerRevalidation { tagFails := true, pathFails := false, apiFails := false
      }).apiAttempted = false := by
  decide

/-- C3 amended: the tag-based purge is always attempted; the path-based
purge is attempted exactly when the tag purge did not throw; the direct API
signal is attempted exactly when neither earlier channel threw (only the API
call's own failure is isolated, by the inner `try`); and no channel failure
changes the sweep's response — the response is the same for any two
revalidation environments. -/
theorem triggerRevalidation_sequential_channels (renv renv' : RevalEnv)
    (env : Env) (db : DB) :
    (triggerRevalidation renv).tagAttempted = true ∧
    (triggerRevalidation renv).pathAttempted = !renv.tagFails ∧
    (triggerRevalidation renv).apiAttempted = (!renv.tagFails && !renv.pathFails) ∧
    (sweepGET env renv db).2.2.2 = (sweepGET env renv' db).2.2.2 := by
  refine ⟨?_, ?_, ?_, ?_⟩
  · cases renv with
    | mk t p a => cases t <;> cases p <;> rfl
  · cases renv with
    | mk t p a => cases t <;> cases p <;> rfl
  · cases renv with
    | mk t p a => cases t <;> cases p <;> rfl
  · simp only [sweepGET]
    rcases h : sweepLoop env db
        (List.filter (fun i => decide (i.banned = false)) db.instances) with
      ⟨db1, ids, ab⟩
    cases ab <;> simp [h]

lemma banMono_refl (l : List Instances) : List.Forall₂ banMono l l :=
  List.forall₂_same.mpr fun _ _ => ⟨rfl, id⟩

lemma banMono_trans {l1 l2 l3 : List Instances}
    (h12 : List.Forall₂ banMono l1 l2) (h23 : List.Forall₂ banMono l2 l3) :
    List.Forall₂ banMono l1 l3 := by
  induction h12 generalizing l3 with
  | nil =>
    cases h23
    exact List.Forall₂.nil
  | cons h _ ih =>
    cases h23 with
    | cons h' t' => exact List.Forall₂.cons ⟨h.1.trans h'.1, fun hb => h'.2 (h.2 hb)⟩ (ih t')

lemma map_ite_banMono (l : List Instances) (iid : Nat) (f : Instances → Instances)
    (hf : ∀ j, (f j).id = j.id ∧ (j.banned = true → (f j).banned = true)) :
    List.Forall₂ banMono l (l.map fun j => if j.id = iid then f j else j) := by
  induction l with
  | nil => exact List.Forall₂.nil
  | cons a t ih =>
    simp only [List.map_cons]
    refine List.Forall₂.cons ?_ ih
    by_cases h : a.id = iid
    · rw [if_pos h]
      exact ⟨(hf a).1.symm, (hf a).2⟩
    · rw [if_neg h]
      exact ⟨rfl, id⟩

lemma processInstance_banMono (env : Env) (db : DB) (inst : Instances) :
    List.Forall₂ banMono db.instances (processInstance env db inst).1.instances := by
  cases hp : env.probe inst.uri inst.api_mode with
  | some u =>
    simp only [processInstance, hp]
    cases hd : env.dataUpdateErr inst.id with
    | some e =>
      simp only [dataUpdate, hd]
      exact banMono_refl _
    | none =>
      simp only [dataUpdate, hd]
      cases hi : env.instUpdateErr inst.id with
      | some e =>
        simp only [instUpdate, hi]
        exact banMono_refl _
      | none =>
        simp only [instUpdate, hi]
        exact map_ite_banMono _ _ _ fun j => ⟨rfl, id⟩
  | none =>
    simp only [processInstance, hp]
    by_cases hge : inst.failed_checks ≥ 5
    · rw [if_pos hge]
      cases hi : env.instUpdateErr inst.id with
      | some e =>
        simp only [instUpdate, hi]
        exact banMono_refl _
      | none =>
        simp only [instUpdate, hi]
        exact map_ite_banMono _ _ _ fun j => ⟨rfl, fun _ => rfl⟩
    · rw [if_neg hge]
      cases hi : env.instUpdateErr inst.id with
      | some e =>
        simp only [instUpdate, hi]
        exact banMono_refl _
      | none =>
        simp only [instUpdate, hi]
        exact map_ite_banMono _ _ _ fun j => ⟨rfl, id⟩

lemma sweepLoop_probed_from_list (env : Env) :
    ∀ (l : List Instances) (db : DB),
      ∀ id ∈ (sweepLoop env db l).2.1, ∃ i ∈ l, i.id = id := by
  intro l
  induction l with
  | nil =>
    intro db id h
    simp [sweepLoop] at h
  | cons a t ih =>
    intro db id h
    rcases hp : processInstance env db a with ⟨db1, e⟩
    cases e with
    | none =>
      rcases hs : sweepLoop env db1 t with ⟨dbf, ids, ab⟩
      simp only [sweepLoop, hp, hs] at h
      rcases List.mem_cons.mp h with h1 | h1
      · exact ⟨a, List.mem_cons_self a t, h1.symm⟩
      · obtain ⟨i, hmem, hid⟩ := ih db1 id (by rw [hs]; exact h1)
        exact ⟨i, List.mem_cons_of_mem a hmem, hid⟩
    | some pe =>
      cases pe with
      | known msg =>
        simp only [sweepLoop, hp, List.mem_singleton] at h
        exact ⟨a, List.mem_cons_self a t, h.symm⟩
      | validation msg =>
        simp only [sweepLoop, hp, List.mem_singleton] at h
        exact ⟨a, List.mem_cons_self a t, h.symm⟩
      | other =>
        rcases hs : sweepLoop env db1 t with ⟨dbf, ids, ab⟩
        simp only [sweepLoop, hp, hs] at h
        rcases List.mem_cons.mp h with h1 | h1
        · exact ⟨a, List.mem_cons_self a t, h1.symm⟩
        · obtain ⟨i, hmem, hid⟩ := ih db1 id (by rw [hs]; exact h1)
          exact ⟨i, List.mem_cons_of_mem a hmem, hid⟩

lemma sweepLoop_banMono (env : Env) :
    ∀ (l : List Instances) (db : DB),
      List.Forall₂ banMono db.instances (sweepLoop env db l).1.instances := by
  intro l
  induction l with
  | nil =>
    intro db
    exact banMono_refl _
  | cons a t ih =>
    intro db
    rcases hp : processInstance env db a with ⟨db1, e⟩
    have h1 : List.Forall₂ banMono db.instances db1.instances := by
      have h := processInstance_banMono env db a
      rw [hp] at h
      exact h
    cases e with
    | none =>
      rcases hs : sweepLoop env db1 t with ⟨dbf, ids, ab⟩
      have h2 := ih db1
      rw [hs] at h2
      simp only [sweepLoop, hp, hs]
      exact banMono_trans h1 h2
    | some pe =>
      cases pe with
      | known msg =>
        simp only [sweepLoop, hp]
        exact h1
      | validation msg =>
        simp only [sweepLoop, hp]
        exact h1
      | other =>
        rcases hs : sweepLoop env db1 t with ⟨dbf, ids, ab⟩
        have h2 := ih db1
        rw [hs] at h2
        simp only [sweepLoop, hp, hs]
        exact banMono_trans h1 h2

/-- C6: the sweep enumerates only rows with `banned = false`, so every
instance the Probe is invoked for is a non-banned instance of the initial
store; and the sweep's writes map rows in place preserving identity and
never clearing `banned` — a banned instance stays banned (ban is terminal
within this engine). -/
theorem sweep_skips_banned_and_ban_terminal (env : Env) (renv : RevalEnv) (db : DB) :
    (∀ id ∈ (sweepGET env renv db).2.1,
      ∃ i ∈ db.instances, i.id = id ∧ i.banned = false) ∧
    List.Forall₂ banMono db.instances (sweepGET env renv db).1.instances := by
  rcases hs : sweepLoop env db
      (List.filter (fun i => decide (i.banned = false)) db.instances) with
    ⟨db1, ids, ab⟩
  have hids : (sweepGET env renv db).2.1 = ids := by
    simp only [sweepGET, hs]
    cases ab <;> rfl
  have hdb : (sweepGET env renv db).1 = db1 := by
    simp only [sweepGET, hs]
    cases ab <;> rfl
  constructor
  · intro id hid
    rw [hids] at hid
    obtain ⟨i, hmem, hi⟩ := sweepLoop_probed_from_list env
      (List.filter (fun i => decide (i.banned = false)) db.instances) db id
      (by rw [hs]; exact hid)
    have hm := List.mem_filter.mp hmem
    exact ⟨i, hm.1, hi, by simpa using hm.2⟩
  · rw [hdb]
    have h := sweepLoop_banMono env
      (List.filter (fun i => decide (i.banned = false)) db.instances) db
    rw [hs] at h
    exact h

/-- Witness for `sweep_skips_banned_and_ban_terminal` at a concrete store
holding one banned and one non-banned instance. -/
theorem sweep_skips_banned_and_ban_terminal_witness :
    (∃ i ∈ dbMix.instances, i.id = 1 ∧ i.banned = false) ∧
    List.Forall₂ banMono dbMix.instances (sweepGET envOk quietReval dbMix).1.instances := by
  have h := sweep_skips_banned_and_ban_terminal envOk quietReval dbMix
  exact ⟨h.1 1 (by decide), h.2⟩

/-- C8 counterexample: two stores that differ only in the stored raw `cache`
blob are swept identically (same environment, every probe succeeding);
the sweep rewrites the metadata fields — the title becomes the probe's new
title — yet each final metadata row still carries its own old `cache`
value, so the record is not fully replaced: the blob survives from before
the sweep, contradicting the claim. -/
theorem sweep_keeps_stale_cache_blob :
    (sweepGET envOk quietReval (dbOne "old-cache-1")).1.instanceData.map
        InstanceData.cache = ["old-cache-1"] ∧
    (sweepGET envOk quietReval (dbOne "old-cache-2")).1.instanceData.map
        InstanceData.cache = ["old-cache-2"] ∧
    (sweepGET envOk quietReval (dbOne "old-cache-1")).1.instanceData.map
        InstanceData.title = ["New Title"] ∧
    (sweepGET envOk quietReval (dbOne "old-cache-1")).2.2.2.status = 200 := by
  refine ⟨?_, ?_, ?_, ?_⟩ <;> rfl

/-- C8 amended: on a successful probe the sweep's metadata write replaces
exactly the seven fields title, description, thumbnail, user count, status
count, registrations and approval-required from the probe result, and leaves
the raw `cache` blob (and the row's `instance_id`) at their stored values. -/
theorem metadataWrite_replaces_all_but_cache (u : ProbeMetadata)
    (validated : String) (d : InstanceData) :
    (metadataWrite u validated d).title = u.title ∧
      (metadataWrite u validated d).description = u.description ∧
      (metadataWrite u validated d).thumbnail = validated ∧
      (metadataWrite u validated d).user_count = u.user_count ∧
      (metadataWrite u validated d).status_count = u.status_count ∧
      (metadataWrite u validated d).registrations = u.registrations ∧
      (metadataWrite u validated d).approval_required = u.approval_required ∧
      (metadataWrite u validated d).cache = d.cache ∧
      (metadataWrite u validated d).instance_id = d.instance_id :=
  ⟨rfl, rfl, rfl, rfl, rfl, rfl, rfl, rfl, rfl⟩

/-- C9 counterexample: the sweep's response is the same fixed message for
the empty store (0 instances succeeded) and for a store whose single
instance was probed, updated and its counter reset (1 succeeded) — the
response carries no counts of succeeded, failed or newly-banned instances,
only a message. -/
theorem sweep_response_has_no_counts :
    (sweepGET envOk quietReval dbEmpty).2.2.2 =
        (sweepGET envOk quietReval (dbOne "c")).2.2.2 ∧
      (sweepGET envOk quietReval dbEmpty).2.1 = [] ∧
      (sweepGET envOk quietReval (dbOne "c")).2.1 = [1] ∧
      ((sweepGET envOk quietReval (dbOne "c")).1.instances.map
        Instances.failed_checks) = [0] := by
  refine ⟨?_, ?_, ?_, ?_⟩ <;> rfl

/-- C9 amended: every completed sweep returns only a message and a
success/failure status — either the fixed success message with status 200,
or a Prisma error's message with status 400 — and no aggregate counts. -/
theorem sweepGET_response_shape (env : Env) (renv : RevalEnv) (db : DB) :
    (sweepGET env renv db).2.2.2 =
        { message := "successfully updated instances", status := 200 } ∨
      ∃ msg, (sweepGET env renv db).2.2.2 = { message := msg, status := 400 } := by
  rcases hs : sweepLoop env db
      (List.filter (fun i => decide (i.banned = false)) db.instances) with
    ⟨db1, ids, ab⟩
  cases ab with
  | none =>
    left
    simp only [sweepGET, hs]
  | some msg =>
    right
    exact ⟨msg, by simp only [sweepGET, hs]⟩

lemma mem_map_uri_unverified (l : List Instances) (u : String) :
    ∀ i ∈ l.map (fun j => if j.uri = u then { j with verified := false } else j),
      i.uri = u → i.verified = false := by
  intro i hi hu
  rcases List.mem_map.mp hi with ⟨j, _, rfl⟩
  by_cases h : j.uri = u
  · rw [if_pos h]
  · rw [if_neg h] at hu ⊢
    exact absurd hu h

/-- C10: whenever the registration endpoint answers 200 (an instance was
created), every persisted row for the requested URI has `verified = false`,
whatever the request carried: the row is created with `verified` hard-coded
to `false` and the immediate follow-up update forces `verified` back to
`false` for that URI. -/
theorem addHandler_forces_unverified (env : AddEnv) (db : DB) (req : AddRequest) :
    (addHandler env db req).2.status = 200 →
      ∀ i ∈ (addHandler env db req).1.instances, i.uri = req.uri →
        i.verified = false := by
  unfold addHandler
  by_cases hm : req.method ≠ "POST"
  · rw [if_pos hm]
    intro h
    simp at h
  · rw [if_neg hm]
    cases ht : env.testURI req.uri with
    | none =>
      intro h
      simp at h
    | some cachedata =>
      dsimp only
      by_cases ha : (db.instances.any fun i => decide (i.uri = req.uri)) = true
      · rw [if_pos ha]
        intro h
        simp at h
      · rw [if_neg ha]
        cases hc : cachedata.contact_account with
        | some acc =>
          simp only [hc]
          intro _ i hi hu
          exact mem_map_uri_unverified _ req.uri i hi hu
        | none =>
          simp only [hc]
          intro _ i hi hu
          exact mem_map_uri_unverified _ req.uri i hi hu

/-- Witness for `addHandler_forces_unverified`: the concrete registration of
`new.example` into the empty store. -/
theorem addHandler_forces_unverified_witness : createdSample.verified = false :=
  addHandler_forces_unverified addEnvOk dbEmpty addReq (by decide)
    createdSample (by decide) rfl
